import Mathlib

/-!
Verification of the Sync & Classification Engine of the posvendas-app
repository (Shopify order sync into a spreadsheet ledger plus customer
scorecard derivation).

The Python sources `utils/sync.py`, `utils/classificacao.py`,
`utils/sheets.py` and `utils/shopify.py` are shallowly embedded below:
dataframes become lists of records, pandas groupby/filter/apply become
list operations, monetary floats become rationals, timestamps become
integers (seconds), and nullable values (`NaN`/`NaT`/`None`) become
`Option`.  String munging (`str.strip`, `str.replace`, `str.lower`)
is re-implemented on character lists with the same semantics as the
Python string methods used by the source.
-/

namespace PosVendas

/-! ## String utilities (embedding of Python str.strip / replace / lower) -/

/-- Whitespace characters removed by Python `str.strip()`. -/
def ehEspaco (c : Char) : Bool :=
  c = ' ' || c = '\t' || c = '\n' || c = '\r' || c = '\x0b' || c = '\x0c'

/-- Strip leading and trailing whitespace from a char list (Python `strip`). -/
def apararLista (l : List Char) : List Char :=
  ((l.dropWhile ehEspaco).reverse.dropWhile ehEspaco).reverse

/-- Python `str.strip()` on a string. -/
def aparar (s : String) : String :=
  ⟨apararLista s.data⟩

/-- Does `l` start with the pattern `pat`? -/
def comecaCom : List Char → List Char → Bool
  | [], _ => true
  | _ :: _, [] => false
  | p :: ps, c :: cs => p = c && comecaCom ps cs

set_option linter.unusedVariables false in
/-- Remove every (non-overlapping, left-to-right) occurrence of the pattern
`pat` from a char list; the semantics of Python `str.replace(pat, "")`. -/
def removerTodos (pat : List Char) : List Char → List Char
  | [] => []
  | c :: rest =>
    if h : pat ≠ [] ∧ comecaCom pat (c :: rest) then
      removerTodos pat ((c :: rest).drop pat.length)
    else
      c :: removerTodos pat rest
termination_by l => l.length
decreasing_by
  · simp only [List.length_drop, List.length_cons]
    have hp : 0 < pat.length := List.length_pos.mpr h.1
    omega
  · simp

/-- ASCII lower-casing of one character (Python `str.lower` restricted to
the ASCII range, which is all the source ever feeds it). -/
def minusculaChar (c : Char) : Char :=
  if 'A' ≤ c ∧ c ≤ 'Z' then Char.ofNat (c.toNat + 32) else c

/-- Python `str.lower()`. -/
def minusculas (s : String) : String :=
  ⟨s.data.map minusculaChar⟩

/-- Embedding of `sheets._normalizar_id`: stringify, delete every `".0"`
fragment, delete commas, strip whitespace; `None`/empty input yields `""`. -/
def normalizarId (s : String) : String :=
  if s = "" then ""
  else ⟨apararLista (removerTodos [','] (removerTodos ['.', '0'] s.data))⟩

/-- Boolean membership of a string in a list of strings. -/
def pertence (x : String) : List String → Bool
  | [] => false
  | y :: ys => (y = x) || pertence x ys

theorem pertence_iff (x : String) (l : List String) :
    pertence x l = true ↔ x ∈ l := by
  induction l with
  | nil => simp [pertence]
  | cons y ys ih =>
    simp only [pertence, Bool.or_eq_true, decide_eq_true_eq, List.mem_cons, ih]
    constructor
    · rintro (rfl | h)
      · exact Or.inl rfl
      · exact Or.inr h
    · rintro (rfl | h)
      · exact Or.inl rfl
      · exact Or.inr h

/-! ## Data model -/

/-- One fetched Shopify order, as the row dictionaries built by
`shopify.buscar_pedidos_pagos_direto` / `puxar_pedidos_pagos_em_lotes`:
`Pedido ID`, `Data de criação`, `Customer ID`, `Cliente`, `Email`,
`Valor Total`, `Pedido`, `Financial Status`, `Cancelled At`,
`Total Refunded`.  Timestamps are modelled post-parse as seconds
(`none` = unparseable, i.e. `NaT` after `pd.to_datetime(errors="coerce")`). -/
structure Pedido where
  pedidoId : String
  dataCriacao : Option Int
  customerId : String
  cliente : String
  email : String
  valorTotal : Rat
  numeroPedido : Int
  financialStatus : String
  cancelledAt : Option String
  totalRefunded : Rat
  deriving Repr, DecidableEq

/-- A row of the `Pedidos Shopify` tab (the valid-orders ledger), after
`sincronizar_incremental` drops the internal columns `Cancelled At`,
`Total Refunded` and `Financial Status`. -/
structure LedgerRow where
  pedidoId : String
  dataCriacao : Option Int
  customerId : String
  cliente : String
  email : String
  valorTotal : Rat
  numeroPedido : Int
  deriving Repr, DecidableEq

/-- Column projection performed by `df_novos.drop(columns=[...])` before
`append_aba`. -/
def paraLedger (p : Pedido) : LedgerRow :=
  { pedidoId := p.pedidoId
    dataCriacao := p.dataCriacao
    customerId := p.customerId
    cliente := p.cliente
    email := p.email
    valorTotal := p.valorTotal
    numeroPedido := p.numeroPedido }

/-! ## Classifier (`classificacao._calcular_classificacao`) -/

/-- Pandas comparison `dias < n` where `dias` may be `NaN`: a `NaN`
comparison is `False`. -/
def diasMenorQue (dias : Option Int) (n : Int) : Bool :=
  match dias with
  | none => false
  | some d => d < n

/-- Embedding of `_calcular_classificacao(row)` (classificacao.py:179):
top-down first-match on frequency/monetary guards, each conjoined with a
recency guard, falling back to `"Iniciante"`. -/
def calcularClassificacao (qtd : Nat) (valor : Rat) (dias : Option Int) : String :=
  if (5 ≤ qtd ∨ 5000 ≤ valor) ∧ diasMenorQue dias 60 = true then "Campeão"
  else if (3 ≤ qtd ∨ 2000 ≤ valor) ∧ diasMenorQue dias 90 = true then "Leal"
  else if (2 ≤ qtd ∨ 500 ≤ valor) ∧ diasMenorQue dias 120 = true then "Promissor"
  else if qtd = 1 ∧ diasMenorQue dias 90 = true then "Iniciante"
  else "Iniciante"

/-! ## State (`classificacao.calcular_estado`) -/

/-- Embedding of the inner `_classificar_estado(dias)` closure of
`calcular_estado` (classificacao.py:362): `NaN` recency is a safe
`Ativo` fallback, then dormant and risk thresholds are tested in order. -/
def classificarEstado (thresholdRisco thresholdDormente : Int)
    (dias : Option Int) : String :=
  match dias with
  | none => "🟢 Ativo"
  | some d =>
    if thresholdDormente ≤ d then "💤 Dormente"
    else if thresholdRisco ≤ d then "🚨 Em risco"
    else "🟢 Ativo"

/-! ## Aggregation (`classificacao.agregar_por_cliente`) -/

/-- A row of the derived customer table as returned by
`agregar_por_cliente` (columns `colunas_ordenadas`, before `Estado`). -/
structure ClienteRow where
  customerId : String
  cliente : String
  email : String
  qtdPedidos : Nat
  valorTotal : Rat
  primeiroPedido : Option Int
  ultimoPedido : Option Int
  diasSemComprar : Option Int
  nivel : String
  deriving Repr, DecidableEq

/-- The grouping key built in step 1 of `agregar_por_cliente`: the
stripped `Customer ID`, falling back to `"EMAIL_" + lower(strip(email))`
when the stripped id is `""`, `"nan"` or `"None"`. -/
def chaveCliente (customerId email : String) : String :=
  let k := aparar customerId
  if k = "" ∨ k = "nan" ∨ k = "None" then "EMAIL_" ++ minusculas (aparar email)
  else k

/-- First-occurrence duplicate removal, the distinct grouping keys of the
`groupby`. -/
def chavesDistintas : List String → List String
  | [] => []
  | x :: xs => x :: chavesDistintas (xs.filter (fun y => y ≠ x))
termination_by l => l.length
decreasing_by
  simp only [List.length_cons]
  exact Nat.lt_succ_of_le (List.length_filter_le _ _)

theorem mem_chavesDistintas (k : String) (l : List String) :
    k ∈ chavesDistintas l ↔ k ∈ l := by
  induction l using chavesDistintas.induct with
  | case1 => simp [chavesDistintas]
  | case2 x xs ih =>
    rw [chavesDistintas, List.mem_cons, ih, List.mem_filter]
    by_cases hk : k = x
    · subst hk; simp
    · simp [hk]

/-- The distinct grouping keys of a ledger, in order of first appearance. -/
def chavesAgregacao (l : List LedgerRow) : List String :=
  chavesDistintas (l.map (fun r => chaveCliente r.customerId r.email))

/-- The rows of one `groupby` group, in original order. -/
def grupoDe (l : List LedgerRow) (k : String) : List LedgerRow :=
  l.filter (fun r => chaveCliente r.customerId r.email = k)

/-- Minimum of a list of timestamps, `none` on the empty list (`pandas`
`min` aggregation with `skipna`). -/
def minOpt (l : List Int) : Option Int :=
  l.foldr (fun x acc => match acc with
    | none => some x
    | some y => some (min x y)) none

/-- Maximum of a list of timestamps, `none` on the empty list. -/
def maxOpt (l : List Int) : Option Int :=
  l.foldr (fun x acc => match acc with
    | none => some x
    | some y => some (max x y)) none

/-- One aggregated customer row for the group of key `k`: `first`
Customer ID, `last` name and email, order count over `Pedido ID` (which
is never null, so it counts every row of the group), monetary sum,
min/max over the *parseable* timestamps (pandas min/max skip `NaT`),
recency in floor-divided whole days clamped at zero with `NaT`
propagated as null, and the tier. -/
def linhaAgregada (l : List LedgerRow) (hoje : Int) (k : String) : ClienteRow :=
  let g := grupoDe l k
  let qtd := g.length
  let valor := (g.map (fun r => r.valorTotal)).sum
  let datas := g.filterMap (fun r => r.dataCriacao)
  let ultimo := maxOpt datas
  let dias := ultimo.map (fun u => max 0 (Int.fdiv (hoje - u) 86400))
  { customerId := ((g.head?).map (fun r => r.customerId)).getD ""
    cliente := ((g.getLast?).map (fun r => r.cliente)).getD ""
    email := ((g.getLast?).map (fun r => r.email)).getD ""
    qtdPedidos := qtd
    valorTotal := valor
    primeiroPedido := minOpt datas
    ultimoPedido := ultimo
    diasSemComprar := dias
    nivel := calcularClassificacao qtd valor dias }

/-- `sort_values("Ultimo Pedido", ascending=False)`: most recent first,
null timestamps last (`na_position="last"`). -/
def antesDesc (a b : ClienteRow) : Bool :=
  match a.ultimoPedido, b.ultimoPedido with
  | none, _ => false
  | some _, none => true
  | some x, some y => y ≤ x

/-- Insertion into a list sorted by `antesDesc`. -/
def insereDesc (c : ClienteRow) : List ClienteRow → List ClienteRow
  | [] => [c]
  | d :: ds => if antesDesc c d then c :: d :: ds else d :: insereDesc c ds

/-- Insertion sort by `Ultimo Pedido` descending. -/
def ordenaPorUltimoDesc (l : List ClienteRow) : List ClienteRow :=
  l.foldr insereDesc []

theorem mem_insereDesc (c x : ClienteRow) (l : List ClienteRow) :
    x ∈ insereDesc c l ↔ x = c ∨ x ∈ l := by
  induction l with
  | nil => simp [insereDesc]
  | cons d ds ih =>
    simp only [insereDesc]
    by_cases h : antesDesc c d = true
    · simp only [if_pos h, List.mem_cons]
    · simp only [if_neg h, List.mem_cons, ih]
      tauto

theorem mem_ordenaPorUltimoDesc (x : ClienteRow) (l : List ClienteRow) :
    x ∈ ordenaPorUltimoDesc l ↔ x ∈ l := by
  induction l with
  | nil => simp [ordenaPorUltimoDesc]
  | cons d ds ih =>
    simp only [ordenaPorUltimoDesc, List.foldr] at *
    rw [mem_insereDesc, ih, List.mem_cons]

/-- Embedding of `agregar_por_cliente` (classificacao.py:11): empty input
yields an empty table; otherwise one aggregated row per distinct grouping
key, sorted by last order descending. -/
def agregarPorCliente (l : List LedgerRow) (hoje : Int) : List ClienteRow :=
  if l.isEmpty then []
  else ordenaPorUltimoDesc ((chavesAgregacao l).map (linhaAgregada l hoje))

/-! ## Cycle statistics (`classificacao.calcular_ciclo_medio`) -/

/-- Python `int()` on a rational: truncation toward zero. -/
def pyInt (q : Rat) : Int :=
  if 0 ≤ q then q.floor else q.ceil

/-- Python `round()` (banker's rounding, half to even). -/
def arredondaBanqueiro (q : Rat) : Int :=
  let f := q.floor
  let frac := q - (f : Rat)
  if frac < 1/2 then f
  else if 1/2 < frac then f + 1
  else if f % 2 = 0 then f else f + 1

/-- Python `round(q, 1)`. -/
def arredonda1 (q : Rat) : Rat :=
  (arredondaBanqueiro (10 * q) : Rat) / 10

/-- Ascending insertion into a sorted list of rationals. -/
def insereQ (x : Rat) : List Rat → List Rat
  | [] => [x]
  | y :: ys => if x ≤ y then x :: y :: ys else y :: insereQ x ys

/-- Ascending insertion sort. -/
def ordenaQ (l : List Rat) : List Rat :=
  l.foldr insereQ []

/-- `pandas.Series.median`: middle element of the sorted values, or the
mean of the two middle elements for an even count. -/
def mediana (l : List Rat) : Rat :=
  let s := ordenaQ l
  let n := s.length
  if n % 2 = 1 then s.getD (n / 2) 0
  else (s.getD (n / 2 - 1) 0 + s.getD (n / 2) 0) / 2

/-- `pandas.Series.mean`. -/
def media (l : List Rat) : Rat :=
  l.sum / (l.length : Rat)

/-- The per-customer average inter-purchase interval
`Ciclo_Medio = Dias_Total / (Qtd Pedidos - 1)`, where `Dias_Total` is the
whole-day difference between last and first order; `none` when either
timestamp is `NaT` (the pandas arithmetic would give `NaN`). -/
def cicloDe (c : ClienteRow) : Option Rat :=
  match c.ultimoPedido, c.primeiroPedido with
  | some u, some p => some ((Int.fdiv (u - p) 86400 : Rat) / ((c.qtdPedidos : Rat) - 1))
  | _, _ => none

/-- The cycle values that survive the `Ciclo_Medio > 0` filter, over
customers with at least two orders (a `NaN` cycle fails `> 0` just like a
non-positive one). -/
def ciclosValidos (df : List ClienteRow) : List Rat :=
  ((df.filter (fun c => decide (2 ≤ c.qtdPedidos))).filterMap cicloDe).filter
    (fun q => decide (0 < q))

/-- Result record of `calcular_ciclo_medio`. -/
structure CicloStats where
  cicloMediana : Option Rat
  cicloMedia : Option Rat
  thresholdAtivo : Int
  thresholdRisco : Int
  thresholdDormente : Int
  totalRecorrentes : Nat
  deriving Repr, DecidableEq

/-- Embedding of `calcular_ciclo_medio` (classificacao.py:223).  The
fallback `(45, 90, 90)` is returned for an empty table, for fewer than 5
customers with 2+ orders (counted *before* the positive-cycle filter), and
for an empty sample after that filter; otherwise the thresholds are
`int(mediana*1.5)` and `int(mediana*3)`, with `threshold_dormente` set to
the same value as `threshold_risco`. -/
def calcularCicloMedio (df : List ClienteRow) : CicloStats :=
  if df.isEmpty then
    ⟨none, none, 45, 90, 90, 0⟩
  else
    let recorrentes := df.filter (fun c => decide (2 ≤ c.qtdPedidos))
    if recorrentes.length < 5 then
      ⟨none, none, 45, 90, 90, recorrentes.length⟩
    else
      let ciclos := (recorrentes.filterMap cicloDe).filter (fun q => decide (0 < q))
      if ciclos.isEmpty then
        ⟨none, none, 45, 90, 90, 0⟩
      else
        let m := mediana ciclos
        ⟨some (arredonda1 m), some (arredonda1 (media ciclos)),
          pyInt (m * (3 / 2)), pyInt (m * 3), pyInt (m * 3), ciclos.length⟩

/-! ## Customer table with state column -/

/-- A customer row after `calcular_estado` added the `Estado` column
(`colunas_finais` order in `sincronizar_incremental`). -/
structure ClienteEstadoRow where
  customerId : String
  cliente : String
  email : String
  qtdPedidos : Nat
  valorTotal : Rat
  primeiroPedido : Option Int
  ultimoPedido : Option Int
  diasSemComprar : Option Int
  estado : String
  nivel : String
  deriving Repr, DecidableEq

/-- Embedding of `calcular_estado` applied to a whole table: apply the
state classifier to the `Dias sem comprar` column of each row. -/
def calcularEstadoTabela (df : List ClienteRow)
    (thresholdRisco thresholdDormente : Int) : List ClienteEstadoRow :=
  df.map (fun c =>
    { customerId := c.customerId
      cliente := c.cliente
      email := c.email
      qtdPedidos := c.qtdPedidos
      valorTotal := c.valorTotal
      primeiroPedido := c.primeiroPedido
      ultimoPedido := c.ultimoPedido
      diasSemComprar := c.diasSemComprar
      estado := classificarEstado thresholdRisco thresholdDormente c.diasSemComprar
      nivel := c.nivel })

/-! ## Statistics (`sync.calcular_estatisticas`,
`classificacao.calcular_metricas_gerais`) -/

/-- Count of rows whose `Nível` equals `s`. -/
def contaNivel (df : List ClienteEstadoRow) (s : String) : Nat :=
  (df.filter (fun c => decide (c.nivel = s))).length

/-- Count of rows whose `Estado` equals `s`. -/
def contaEstado (df : List ClienteEstadoRow) (s : String) : Nat :=
  (df.filter (fun c => decide (c.estado = s))).length

/-- The `"novos"` entry of `calcular_estatisticas` (sync.py:280): zero on
an empty table, else the number of rows with `Nível == "Novo"`. -/
def estatisticasNovos (df : List ClienteEstadoRow) : Nat :=
  if df.isEmpty then 0 else contaNivel df "Novo"

/-- The `"total_novos"` entry of `calcular_metricas_gerais`
(classificacao.py:432): zero on an empty table, else
`value_counts().get("Novo", 0)`, which is the same count of rows with
`Nível == "Novo"`. -/
def metricasTotalNovos (df : List ClienteEstadoRow) : Nat :=
  if df.isEmpty then 0 else (df.map (fun c => c.nivel)).count "Novo"

/-! ## Sync orchestrator (`sync.sincronizar_incremental`) -/

/-- The durable store: the `Pedidos Shopify` tab (valid-orders ledger),
a second hypothetical ignored-orders tab (no code path in the repository
ever writes it; it is carried to state the partition-exclusivity claim),
and the derived `Clientes Shopify` tab. -/
structure Store where
  pedidos : List LedgerRow
  ignorados : List LedgerRow
  clientes : List ClienteEstadoRow
  deriving Repr, DecidableEq

/-- Step 2 of `sincronizar_incremental`: keep rows with `Cancelled At`
null, then rows with `Total Refunded < Valor Total`. -/
def filtrarValidos (l : List Pedido) : List Pedido :=
  (l.filter (fun p => p.cancelledAt.isNone)).filter
    (fun p => decide (p.totalRefunded < p.valorTotal))

/-- `ler_ids_existentes`: the ids of the ledger rows, each passed through
`_normalizar_id` (sheets.py:165). -/
def idsExistentes (l : List LedgerRow) : List String :=
  l.map (fun r => normalizarId r.pedidoId)

/-- Embedding of `sincronizar_incremental` (sync.py:17), parameterised by
the fetched orders and the current timestamp `hoje`.  Returns the updated
store and `novos_pedidos`.  Mirrors the source's control flow: early
return on an empty fetch or an empty valid subset; otherwise trim the
incoming ids, drop those already in the normalized id set of the ledger,
append the remainder (minus internal columns) to the valid ledger, and
rebuild the customer table from the full ledger with thresholds 45/90. -/
def sincronizarIncremental (store : Store) (fetched : List Pedido)
    (hoje : Int) : Store × Nat :=
  if fetched.isEmpty then (store, 0)
  else
    let validos := filtrarValidos fetched
    if validos.isEmpty then (store, 0)
    else
      let validosT := validos.map (fun p => { p with pedidoId := aparar p.pedidoId })
      let ids := idsExistentes store.pedidos
      let novos := validosT.filter (fun p => !(pertence p.pedidoId ids))
      let pedidos2 := store.pedidos ++ novos.map paraLedger
      let tabela := agregarPorCliente pedidos2 hoje
      let clientes2 :=
        if tabela.isEmpty then store.clientes
        else calcularEstadoTabela tabela 45 90
      (⟨pedidos2, store.ignorados, clientes2⟩, novos.length)

/-- A sequence of sync runs over successive fetched batches. -/
def execucoes (store : Store) (lotes : List (List Pedido)) (hoje : Int) : Store :=
  lotes.foldl (fun s lote => (sincronizarIncremental s lote hoje).1) store

/-! ## Order source adapter (`shopify.buscar_pedidos_pagos_direto`) -/

/-- The relevant fields of one raw Shopify API order object.  `Option`
models JSON fields that may be missing or null; an `Option String` that
is `some ""` models an empty string (falsy in the Python `or` chains). -/
structure RawOrder where
  orderId : Option Int
  createdAt : Option Int
  custId : Option Int
  custFirstName : String
  custLastName : String
  custEmail : Option String
  orderEmail : Option String
  contactEmail : Option String
  totalPrice : Rat
  orderNumber : Int
  financialStatus : String
  cancelledAt : Option String
  totalRefunded : Rat
  deriving Repr, DecidableEq

/-- Python `a or b` for a possibly-missing, possibly-empty string. -/
def ouVazio (v : Option String) (w : String) : String :=
  match v with
  | none => w
  | some s => if s = "" then w else s

/-- `str(x.get("id", ""))`. -/
def idParaTexto (v : Option Int) : String :=
  match v with
  | none => ""
  | some n => toString n

/-- Embedding of the row built per order in `buscar_pedidos_pagos_direto`
(shopify.py:106): name from the customer's first/last name with a
`"SEM NOME"` fallback, email from the
`customer.email or order.email or contact_email` chain with the fixed
placeholder `"sem-email@exemplo.com"`, ids stringified. -/
def montarLinhaDireto (o : RawOrder) : Pedido :=
  let nome := aparar (o.custFirstName ++ " " ++ o.custLastName)
  { pedidoId := idParaTexto o.orderId
    dataCriacao := o.createdAt
    customerId := idParaTexto o.custId
    cliente := if nome = "" then "SEM NOME" else nome
    email := ouVazio o.custEmail (ouVazio o.orderEmail
      (ouVazio o.contactEmail "sem-email@exemplo.com"))
    valorTotal := o.totalPrice
    numeroPedido := o.orderNumber
    financialStatus := o.financialStatus
    cancelledAt := o.cancelledAt
    totalRefunded := o.totalRefunded }

/-! ## Derived validity predicate and concrete example values -/

/-- The validity condition of the partition step of
`sincronizar_incremental`: no cancellation timestamp and refunded amount
strictly below the total. -/
def pedidoValido (p : Pedido) : Prop :=
  p.cancelledAt = none ∧ p.totalRefunded < p.valorTotal

instance (p : Pedido) : Decidable (pedidoValido p) := by
  unfold pedidoValido; infer_instance

/-- An empty store (fresh spreadsheet). -/
def lojaVazia : Store := ⟨[], [], []⟩

/-- A valid order with canonical id `"123"`. -/
def pedidoCanonico : Pedido :=
  ⟨"123", some 0, "7", "Ana", "a@b.c", 10, 1, "paid", none, 0⟩

/-- The same logical order with the numeric-variant id `"123.0"`. -/
def pedidoPontoZero : Pedido :=
  ⟨"123.0", some 0, "7", "Ana", "a@b.c", 10, 1, "paid", none, 0⟩

/-- A cancelled order. -/
def pedidoCancelado : Pedido :=
  ⟨"9", some 0, "8", "Bia", "b@b.c", 10, 2, "refunded", some "2024-01-01", 0⟩

/-- A valid order with id `"6"`. -/
def pedidoNovoValido : Pedido :=
  ⟨"6", some 86400, "5", "Caio", "c@b.c", 50, 3, "paid", none, 10⟩

/-- A fully refunded order. -/
def pedidoReembolsado : Pedido :=
  ⟨"4", some 0, "5", "Caio", "c@b.c", 10, 4, "refunded", none, 10⟩

/-- A ledger row with id `"5"`. -/
def linhaLedger5 : LedgerRow := ⟨"5", some 0, "5", "Caio", "c@b.c", 50, 3⟩

/-- Ledger row of customer `"7"` with a parseable timestamp. -/
def linhaComData : LedgerRow := ⟨"1", some 0, "7", "Ana", "a@b.c", 10, 1⟩

/-- Ledger row of customer `"7"` with an unparseable timestamp (`NaT`). -/
def linhaSemData : LedgerRow := ⟨"2", none, "7", "Ana", "a@b.c", 20, 2⟩

/-- A recurrent customer aggregate: 2 orders, 10 days apart. -/
def clienteRecorrente : ClienteRow :=
  ⟨"7", "Ana", "a@b.c", 2, 30, some 0, some 864000, some 5, "Leal"⟩

/-- Five identical recurrent customers: a sample with median cycle 10. -/
def amostraCiclo : List ClienteRow :=
  [clienteRecorrente, clienteRecorrente, clienteRecorrente,
   clienteRecorrente, clienteRecorrente]

/-- A raw API order with no customer object and no email anywhere. -/
def pedidoBrutoSemNada1 : RawOrder :=
  ⟨some 31, some 0, none, "", "", none, none, none, 10, 1, "paid", none, 0⟩

/-- Another anonymous raw order, from a different real person. -/
def pedidoBrutoSemNada2 : RawOrder :=
  ⟨some 32, some 86400, none, "Zoe", "Lima", none, some "", some "", 20, 2, "paid", none, 0⟩

/-- A JSON field that is absent, null, or the empty string: falsy for the
Python `or` chains of the source adapter. -/
def vazioOuAusente (v : Option String) : Prop := v = none ∨ v = some ""

/-! # Theorems -/

/-! ### C7: validity of the partition filter -/

theorem mem_filtrarValidos (l : List Pedido) (p : Pedido) :
    p ∈ filtrarValidos l ↔
      p ∈ l ∧ p.cancelledAt = none ∧ p.totalRefunded < p.valorTotal := by
  simp only [filtrarValidos, List.mem_filter, Option.isNone_iff_eq_none,
    decide_eq_true_eq, and_assoc]

/-- C7: `sincronizar_incremental` keeps a fetched order as valid iff its
cancellation timestamp is absent and its refunded amount is strictly less
than its total; in particular an order whose refunded amount equals its
total is filtered out. -/
theorem c7_valido_sse_nao_cancelado_e_reembolso_menor
    (l : List Pedido) (p : Pedido) :
    (p ∈ filtrarValidos l ↔
      p ∈ l ∧ p.cancelledAt = none ∧ p.totalRefunded < p.valorTotal) ∧
    (p.totalRefunded = p.valorTotal → p ∉ filtrarValidos l) := by
  refine ⟨mem_filtrarValidos l p, fun heq hmem => ?_⟩
  have h := (mem_filtrarValidos l p).mp hmem
  rw [heq] at h
  exact absurd h.2.2 (lt_irrefl _)

/-- Witness for C7 at a concrete fully refunded order. -/
theorem c7_witness :
    (pedidoReembolsado ∈ filtrarValidos [pedidoReembolsado] ↔
      pedidoReembolsado ∈ [pedidoReembolsado] ∧
        pedidoReembolsado.cancelledAt = none ∧
        pedidoReembolsado.totalRefunded < pedidoReembolsado.valorTotal) ∧
    (pedidoReembolsado.totalRefunded = pedidoReembolsado.valorTotal →
      pedidoReembolsado ∉ filtrarValidos [pedidoReembolsado]) :=
  c7_valido_sse_nao_cancelado_e_reembolso_menor [pedidoReembolsado] pedidoReembolsado

/-! ### C4: the tier classifier -/

/-- C4 (amended): the tier classifier evaluates top-down with first match
winning, but every guard is conjoined with a recency test: Campeão
requires `(qtd ≥ 5 or valor ≥ 5000) and dias < 60`, Leal
`(qtd ≥ 3 or valor ≥ 2000) and dias < 90`, Promissor
`(qtd ≥ 2 or valor ≥ 500) and dias < 120`, and everything else —
including high-frequency but stale customers — falls through to
`"Iniciante"`.  Tier therefore does depend on recency. -/
theorem c4_classificador_depende_de_recencia
    (qtd : Nat) (valor : Rat) (dias : Option Int) :
    (calcularClassificacao qtd valor dias = "Campeão" ↔
      ((5 ≤ qtd ∨ 5000 ≤ valor) ∧ diasMenorQue dias 60 = true)) ∧
    (calcularClassificacao qtd valor dias = "Leal" ↔
      (¬((5 ≤ qtd ∨ 5000 ≤ valor) ∧ diasMenorQue dias 60 = true) ∧
        (3 ≤ qtd ∨ 2000 ≤ valor) ∧ diasMenorQue dias 90 = true)) ∧
    (calcularClassificacao qtd valor dias = "Promissor" ↔
      (¬((5 ≤ qtd ∨ 5000 ≤ valor) ∧ diasMenorQue dias 60 = true) ∧
        ¬((3 ≤ qtd ∨ 2000 ≤ valor) ∧ diasMenorQue dias 90 = true) ∧
        (2 ≤ qtd ∨ 500 ≤ valor) ∧ diasMenorQue dias 120 = true)) ∧
    (calcularClassificacao qtd valor dias = "Iniciante" ↔
      (¬((5 ≤ qtd ∨ 5000 ≤ valor) ∧ diasMenorQue dias 60 = true) ∧
        ¬((3 ≤ qtd ∨ 2000 ≤ valor) ∧ diasMenorQue dias 90 = true) ∧
        ¬((2 ≤ qtd ∨ 500 ≤ valor) ∧ diasMenorQue dias 120 = true))) := by
  unfold calcularClassificacao
  split_ifs <;> simp_all

/-- Counterexample to C4 as stated: two aggregates that differ only in
`days_since_last_order` receive different tiers, and an aggregate with
`order_count ≥ 5` is not classified Campeão when stale. -/
theorem c4_counterexample :
    calcularClassificacao 5 0 (some 0) = "Campeão" ∧
    calcularClassificacao 5 0 (some 100) = "Promissor" := by
  decide

/-! ### C6: the state classifier -/

/-- C6: for thresholds with `risco < dormente`, the state classifier
returns Ativo on null recency, Dormente at or above the dormant
threshold, Em risco in `[risco, dormente)`, and Ativo below the risk
threshold. -/
theorem c6_estado_por_faixas (risco dormente : Int) (dias : Option Int)
    (h : risco < dormente) :
    (dias = none → classificarEstado risco dormente dias = "🟢 Ativo") ∧
    (∀ d : Int, dias = some d →
      (dormente ≤ d → classificarEstado risco dormente dias = "💤 Dormente") ∧
      (risco ≤ d ∧ d < dormente →
        classificarEstado risco dormente dias = "🚨 Em risco") ∧
      (d < risco → classificarEstado risco dormente dias = "🟢 Ativo")) := by
  refine ⟨fun hn => by rw [hn]; rfl, fun d hd => ?_⟩
  subst hd
  refine ⟨fun hdorm => ?_, fun ⟨hr, hlt⟩ => ?_, fun hativo => ?_⟩
  · simp [classificarEstado, if_pos hdorm]
  · simp [classificarEstado, if_neg (not_le.mpr hlt), if_pos hr]
  · have h1 : ¬dormente ≤ d := not_le.mpr (hativo.trans h)
    have h2 : ¬risco ≤ d := not_le.mpr hativo
    simp [classificarEstado, if_neg h1, if_neg h2]

/-- Witness for C6 at thresholds 45/90 and recency 50. -/
theorem c6_witness :
    (45 : Int) < 90 ∧
    ((some (50 : Int) = none → classificarEstado 45 90 (some 50) = "🟢 Ativo") ∧
      (∀ d : Int, some (50 : Int) = some d →
        (90 ≤ d → classificarEstado 45 90 (some 50) = "💤 Dormente") ∧
        (45 ≤ d ∧ d < 90 → classificarEstado 45 90 (some 50) = "🚨 Em risco") ∧
        (d < 45 → classificarEstado 45 90 (some 50) = "🟢 Ativo"))) :=
  ⟨by decide, c6_estado_por_faixas 45 90 (some 50) (by decide)⟩

/-! ### C9: the tier `"Novo"` is never produced -/

theorem calcularClassificacao_mem (qtd : Nat) (valor : Rat) (dias : Option Int) :
    calcularClassificacao qtd valor dias ∈
      (["Campeão", "Leal", "Promissor", "Iniciante"] : List String) := by
  unfold calcularClassificacao
  split_ifs <;> simp

theorem mem_agregarPorCliente (l : List LedgerRow) (hoje : Int) (row : ClienteRow) :
    row ∈ agregarPorCliente l hoje ↔
      ¬l.isEmpty = true ∧ ∃ k, k ∈ chavesAgregacao l ∧ row = linhaAgregada l hoje k := by
  unfold agregarPorCliente
  by_cases h : l.isEmpty
  · simp [h]
  · rw [if_neg h, mem_ordenaPorUltimoDesc, List.mem_map]
    constructor
    · rintro ⟨k, hk, rfl⟩
      exact ⟨h, k, hk, rfl⟩
    · rintro ⟨-, k, hk, rfl⟩
      exact ⟨k, hk, rfl⟩

theorem nivel_mem_agregar (l : List LedgerRow) (hoje : Int) (row : ClienteRow)
    (h : row ∈ agregarPorCliente l hoje) : row.nivel ≠ "Novo" := by
  obtain ⟨-, k, -, rfl⟩ := (mem_agregarPorCliente l hoje row).mp h
  have hmem := calcularClassificacao_mem (grupoDe l k).length
    ((grupoDe l k).map (fun r => r.valorTotal)).sum
    ((maxOpt ((grupoDe l k).filterMap (fun r => r.dataCriacao))).map
      (fun u => max 0 (Int.fdiv (hoje - u) 86400)))
  intro hcontra
  rw [show (linhaAgregada l hoje k).nivel = calcularClassificacao (grupoDe l k).length
      ((grupoDe l k).map (fun r => r.valorTotal)).sum
      ((maxOpt ((grupoDe l k).filterMap (fun r => r.dataCriacao))).map
        (fun u => max 0 (Int.fdiv (hoje - u) 86400))) from rfl] at hcontra
  rw [hcontra] at hmem
  simp at hmem

/-- C9: the tier classifier only ever returns one of Campeão, Leal,
Promissor, Iniciante — never `"Novo"` — so the `"Novo"`-tier counters of
`calcular_estatisticas` and `calcular_metricas_gerais` are zero on every
customer table produced by the aggregation pipeline. -/
theorem c9_nivel_novo_nunca_ocorre :
    (∀ (qtd : Nat) (valor : Rat) (dias : Option Int),
      calcularClassificacao qtd valor dias ∈
        (["Campeão", "Leal", "Promissor", "Iniciante"] : List String) ∧
      calcularClassificacao qtd valor dias ≠ "Novo") ∧
    (∀ (pedidos : List LedgerRow) (hoje risco dormente : Int),
      estatisticasNovos
        (calcularEstadoTabela (agregarPorCliente pedidos hoje) risco dormente) = 0 ∧
      metricasTotalNovos
        (calcularEstadoTabela (agregarPorCliente pedidos hoje) risco dormente) = 0) := by
  constructor
  · intro qtd valor dias
    refine ⟨calcularClassificacao_mem qtd valor dias, fun hcontra => ?_⟩
    have hmem := calcularClassificacao_mem qtd valor dias
    rw [hcontra] at hmem
    simp at hmem
  · intro pedidos hoje risco dormente
    have hnivel : ∀ c ∈ calcularEstadoTabela (agregarPorCliente pedidos hoje)
        risco dormente, c.nivel ≠ "Novo" := by
      intro c hc
      rw [calcularEstadoTabela, List.mem_map] at hc
      obtain ⟨a, ha, rfl⟩ := hc
      exact nivel_mem_agregar pedidos hoje a ha
    constructor
    · unfold estatisticasNovos contaNivel
      split
      · rfl
      · rw [List.length_eq_zero, List.filter_eq_nil_iff]
        intro a ha
        simpa using hnivel a ha
    · unfold metricasTotalNovos
      split
      · rfl
      · rw [List.count_eq_zero, List.mem_map]
        rintro ⟨a, ha, hcontra⟩
        exact hnivel a ha hcontra

/-! ### C5: the cycle estimator -/

/-- C5 (amended): with at least five customers having two or more orders
(counted before the positive-cycle filter) and a nonempty positive-cycle
sample, `calcular_ciclo_medio` returns
`threshold_ativo = int(mediana × 1.5)` (truncated, not rounded),
`threshold_risco = int(mediana × 3)`, and `threshold_dormente` equal to
`threshold_risco` — the dormant threshold never exceeds the risk
threshold. -/
theorem c5_limiares_do_ciclo (df : List ClienteRow)
    (h5 : 5 ≤ (df.filter (fun c => decide (2 ≤ c.qtdPedidos))).length)
    (hne : ciclosValidos df ≠ []) :
    (calcularCicloMedio df).thresholdAtivo =
      pyInt (mediana (ciclosValidos df) * (3 / 2)) ∧
    (calcularCicloMedio df).thresholdRisco =
      pyInt (mediana (ciclosValidos df) * 3) ∧
    (calcularCicloMedio df).thresholdDormente =
      (calcularCicloMedio df).thresholdRisco ∧
    (calcularCicloMedio df).totalRecorrentes = (ciclosValidos df).length := by
  have hdf : ¬df.isEmpty = true := by
    intro h
    rw [List.isEmpty_iff] at h
    subst h
    simp at h5
  have hlen : ¬(df.filter (fun c => decide (2 ≤ c.qtdPedidos))).length < 5 :=
    not_lt.mpr h5
  have hciclos : ¬((df.filter (fun c => decide (2 ≤ c.qtdPedidos))).filterMap
      cicloDe |>.filter (fun q => decide (0 < q))).isEmpty = true := by
    intro h
    rw [List.isEmpty_iff] at h
    exact hne h
  unfold calcularCicloMedio
  rw [if_neg hdf, if_neg hlen, if_neg hciclos]
  exact ⟨rfl, rfl, rfl, rfl⟩

/-- Witness for C5 at a concrete five-customer sample with cycle 10. -/
theorem c5_witness :
    5 ≤ (amostraCiclo.filter (fun c => decide (2 ≤ c.qtdPedidos))).length ∧
    ciclosValidos amostraCiclo ≠ [] ∧
    ((calcularCicloMedio amostraCiclo).thresholdAtivo =
        pyInt (mediana (ciclosValidos amostraCiclo) * (3 / 2)) ∧
      (calcularCicloMedio amostraCiclo).thresholdRisco =
        pyInt (mediana (ciclosValidos amostraCiclo) * 3) ∧
      (calcularCicloMedio amostraCiclo).thresholdDormente =
        (calcularCicloMedio amostraCiclo).thresholdRisco ∧
      (calcularCicloMedio amostraCiclo).totalRecorrentes =
        (ciclosValidos amostraCiclo).length) :=
  ⟨by with_unfolding_all decide, by with_unfolding_all decide,
    c5_limiares_do_ciclo amostraCiclo (by with_unfolding_all decide)
      (by with_unfolding_all decide)⟩

/-- Counterexample to C5 as stated: on a sample with median cycle 10 the
code returns `threshold_risco = int(10 × 3) = 30` (not
`round(10 × 1.5) = 15`) and `threshold_dormente = 30 = threshold_risco`,
so the dormant threshold does not exceed the risk threshold. -/
theorem c5_counterexample :
    mediana (ciclosValidos amostraCiclo) = 10 ∧
    (calcularCicloMedio amostraCiclo).thresholdRisco = 30 ∧
    (calcularCicloMedio amostraCiclo).thresholdDormente = 30 ∧
    decide ((calcularCicloMedio amostraCiclo).thresholdRisco <
        (calcularCicloMedio amostraCiclo).thresholdDormente) = false := by
  with_unfolding_all decide

/-! ### C8: aggregation under unparseable timestamps -/

/-- The single aggregated row of the two-order example group `"7"`, one
order of which has an unparseable timestamp. -/
def linhaExemplo : ClienteRow :=
  linhaAgregada [linhaComData, linhaSemData] 172800 "7"

/-- C8 (amended): every row of the aggregation belongs to a grouping key;
its order count is the size of the whole group — orders with unparseable
timestamps are still counted — while first/last order are the min/max over
the parseable timestamps only; recency is null exactly when no timestamp
of the group parsed, and a defined recency is the floor-divided whole-day
difference clamped at zero, hence never negative; and no customer is
dropped. -/
theorem c8_agregado_com_datas_invalidas (pedidos : List LedgerRow)
    (hoje : Int) (row : ClienteRow)
    (hrow : row ∈ agregarPorCliente pedidos hoje) :
    (∃ k, k ∈ chavesAgregacao pedidos ∧ row = linhaAgregada pedidos hoje k ∧
      row.qtdPedidos = (grupoDe pedidos k).length ∧
      row.primeiroPedido =
        minOpt ((grupoDe pedidos k).filterMap (fun r => r.dataCriacao)) ∧
      row.ultimoPedido =
        maxOpt ((grupoDe pedidos k).filterMap (fun r => r.dataCriacao))) ∧
    (row.ultimoPedido = none → row.diasSemComprar = none) ∧
    (∀ u : Int, row.ultimoPedido = some u →
      row.diasSemComprar = some (max 0 (Int.fdiv (hoje - u) 86400))) ∧
    (∀ d : Int, row.diasSemComprar = some d → 0 ≤ d) ∧
    (∀ p ∈ pedidos,
      linhaAgregada pedidos hoje (chaveCliente p.customerId p.email) ∈
        agregarPorCliente pedidos hoje) := by
  obtain ⟨hne, k, hk, rfl⟩ := (mem_agregarPorCliente pedidos hoje row).mp hrow
  have hdias : (linhaAgregada pedidos hoje k).diasSemComprar =
      (maxOpt ((grupoDe pedidos k).filterMap (fun r => r.dataCriacao))).map
        (fun u => max 0 (Int.fdiv (hoje - u) 86400)) := rfl
  have hult : (linhaAgregada pedidos hoje k).ultimoPedido =
      maxOpt ((grupoDe pedidos k).filterMap (fun r => r.dataCriacao)) := rfl
  refine ⟨⟨k, hk, rfl, rfl, rfl, rfl⟩, ?_, ?_, ?_, ?_⟩
  · intro h
    rw [hdias, ← hult, h]
    rfl
  · intro u hu
    rw [hdias, ← hult, hu]
    rfl
  · intro d hd
    rw [hdias] at hd
    obtain ⟨u, -, hu⟩ := Option.map_eq_some'.mp hd
    rw [← hu]
    exact le_max_left 0 _
  · intro p hp
    refine (mem_agregarPorCliente pedidos hoje _).mpr ⟨?_, _, ?_, rfl⟩
    · simp [List.isEmpty_iff, List.ne_nil_of_mem hp]
    · exact (mem_chavesDistintas _ _).mpr
        (List.mem_map_of_mem (fun r => chaveCliente r.customerId r.email) hp)

/-- Witness for C8 at the two-order group with one unparseable date. -/
theorem c8_witness :
    linhaExemplo ∈ agregarPorCliente [linhaComData, linhaSemData] 172800 ∧
    ((∃ k, k ∈ chavesAgregacao [linhaComData, linhaSemData] ∧
        linhaExemplo = linhaAgregada [linhaComData, linhaSemData] 172800 k ∧
        linhaExemplo.qtdPedidos = (grupoDe [linhaComData, linhaSemData] k).length ∧
        linhaExemplo.primeiroPedido =
          minOpt ((grupoDe [linhaComData, linhaSemData] k).filterMap
            (fun r => r.dataCriacao)) ∧
        linhaExemplo.ultimoPedido =
          maxOpt ((grupoDe [linhaComData, linhaSemData] k).filterMap
            (fun r => r.dataCriacao))) ∧
      (linhaExemplo.ultimoPedido = none → linhaExemplo.diasSemComprar = none) ∧
      (∀ u : Int, linhaExemplo.ultimoPedido = some u →
        linhaExemplo.diasSemComprar = some (max 0 (Int.fdiv (172800 - u) 86400))) ∧
      (∀ d : Int, linhaExemplo.diasSemComprar = some d → 0 ≤ d) ∧
      (∀ p ∈ [linhaComData, linhaSemData],
        linhaAgregada [linhaComData, linhaSemData] 172800
            (chaveCliente p.customerId p.email) ∈
          agregarPorCliente [linhaComData, linhaSemData] 172800)) :=
  ⟨by with_unfolding_all decide,
    c8_agregado_com_datas_invalidas [linhaComData, linhaSemData] 172800
      linhaExemplo (by with_unfolding_all decide)⟩

/-- Counterexample to C8 as stated: the group of customer `"7"` has two
orders, one with an unparseable timestamp; the aggregated `Qtd Pedidos`
is 2 (the count does not exclude the unparseable order), although only
one order of the group has a parseable timestamp. -/
theorem c8_counterexample :
    (agregarPorCliente [linhaComData, linhaSemData] 172800).map
      (fun c => c.qtdPedidos) = [2] ∧
    ([linhaComData, linhaSemData].filter
      (fun r => r.dataCriacao.isSome)).length = 1 := by
  with_unfolding_all decide

/-! ### C10: synthesized customer key for anonymous orders -/

theorem montar_sem_identificacao (o : RawOrder) (hid : o.custId = none)
    (h1 : vazioOuAusente o.custEmail) (h2 : vazioOuAusente o.orderEmail)
    (h3 : vazioOuAusente o.contactEmail) :
    (montarLinhaDireto o).customerId = "" ∧
    (montarLinhaDireto o).email = "sem-email@exemplo.com" := by
  unfold montarLinhaDireto idParaTexto ouVazio
  rcases h1 with h1 | h1 <;> rcases h2 with h2 | h2 <;> rcases h3 with h3 | h3 <;>
    simp [hid, h1, h2, h3]

theorem chave_fallback_constante :
    chaveCliente "" "sem-email@exemplo.com" = "EMAIL_sem-email@exemplo.com" := by
  with_unfolding_all decide

/-- C10: two raw orders lacking both a usable customer id and every email
field receive the placeholder email and the same synthesized key
`"EMAIL_sem-email@exemplo.com"`, and aggregating them yields a single
customer row. -/
theorem c10_chave_sintetizada_unica (o₁ o₂ : RawOrder)
    (hid₁ : o₁.custId = none) (he₁ : vazioOuAusente o₁.custEmail)
    (hf₁ : vazioOuAusente o₁.orderEmail) (hg₁ : vazioOuAusente o₁.contactEmail)
    (hid₂ : o₂.custId = none) (he₂ : vazioOuAusente o₂.custEmail)
    (hf₂ : vazioOuAusente o₂.orderEmail) (hg₂ : vazioOuAusente o₂.contactEmail) :
    chaveCliente (montarLinhaDireto o₁).customerId (montarLinhaDireto o₁).email =
      "EMAIL_sem-email@exemplo.com" ∧
    chaveCliente (montarLinhaDireto o₂).customerId (montarLinhaDireto o₂).email =
      "EMAIL_sem-email@exemplo.com" ∧
    ∀ hoje : Int,
      (agregarPorCliente
        [paraLedger (montarLinhaDireto o₁), paraLedger (montarLinhaDireto o₂)]
        hoje).length = 1 := by
  obtain ⟨hc₁, hm₁⟩ := montar_sem_identificacao o₁ hid₁ he₁ hf₁ hg₁
  obtain ⟨hc₂, hm₂⟩ := montar_sem_identificacao o₂ hid₂ he₂ hf₂ hg₂
  have hk₁ : chaveCliente (montarLinhaDireto o₁).customerId
      (montarLinhaDireto o₁).email = "EMAIL_sem-email@exemplo.com" := by
    rw [hc₁, hm₁, chave_fallback_constante]
  have hk₂ : chaveCliente (montarLinhaDireto o₂).customerId
      (montarLinhaDireto o₂).email = "EMAIL_sem-email@exemplo.com" := by
    rw [hc₂, hm₂, chave_fallback_constante]
  refine ⟨hk₁, hk₂, fun hoje => ?_⟩
  have hpk₁ : chaveCliente (paraLedger (montarLinhaDireto o₁)).customerId
      (paraLedger (montarLinhaDireto o₁)).email = "EMAIL_sem-email@exemplo.com" := hk₁
  have hpk₂ : chaveCliente (paraLedger (montarLinhaDireto o₂)).customerId
      (paraLedger (montarLinhaDireto o₂)).email = "EMAIL_sem-email@exemplo.com" := hk₂
  unfold agregarPorCliente chavesAgregacao
  simp only [List.isEmpty_cons, if_false, Bool.false_eq_true, List.map_cons,
    List.map_nil, hpk₁, hpk₂]
  rw [(by with_unfolding_all decide :
    chavesDistintas ["EMAIL_sem-email@exemplo.com", "EMAIL_sem-email@exemplo.com"] =
      ["EMAIL_sem-email@exemplo.com"])]
  simp [ordenaPorUltimoDesc, insereDesc]

/-- Witness for C10 at two concrete anonymous raw orders from distinct
real customers. -/
theorem c10_witness :
    pedidoBrutoSemNada1.custId = none ∧
    vazioOuAusente pedidoBrutoSemNada1.custEmail ∧
    pedidoBrutoSemNada2.custId = none ∧
    vazioOuAusente pedidoBrutoSemNada2.orderEmail ∧
    (chaveCliente (montarLinhaDireto pedidoBrutoSemNada1).customerId
        (montarLinhaDireto pedidoBrutoSemNada1).email =
      "EMAIL_sem-email@exemplo.com" ∧
    chaveCliente (montarLinhaDireto pedidoBrutoSemNada2).customerId
        (montarLinhaDireto pedidoBrutoSemNada2).email =
      "EMAIL_sem-email@exemplo.com" ∧
    ∀ hoje : Int,
      (agregarPorCliente
        [paraLedger (montarLinhaDireto pedidoBrutoSemNada1),
         paraLedger (montarLinhaDireto pedidoBrutoSemNada2)]
        hoje).length = 1) :=
  ⟨rfl, Or.inl rfl, rfl, Or.inr rfl,
    c10_chave_sintetizada_unica pedidoBrutoSemNada1 pedidoBrutoSemNada2
      rfl (Or.inl rfl) (Or.inl rfl) (Or.inl rfl)
      rfl (Or.inl rfl) (Or.inr rfl) (Or.inr rfl)⟩

/-! ### Sync orchestrator lemmas -/

/-- The delta appended to the valid ledger by a run of
`sincronizar_incremental`: the valid orders, ids stripped, minus those
whose id already sits in the normalized id set of the ledger. -/
def pedidosNovos (store : Store) (fetched : List Pedido) : List Pedido :=
  ((filtrarValidos fetched).map
      (fun p => { p with pedidoId := aparar p.pedidoId })).filter
    (fun p => !(pertence p.pedidoId (idsExistentes store.pedidos)))

theorem sincronizar_vazio (store : Store) (fetched : List Pedido) (hoje : Int)
    (hf : fetched.isEmpty = true) :
    sincronizarIncremental store fetched hoje = (store, 0) := by
  unfold sincronizarIncremental
  rw [if_pos hf]

theorem sincronizar_sem_validos (store : Store) (fetched : List Pedido)
    (hoje : Int) (hf : ¬fetched.isEmpty = true)
    (hv : (filtrarValidos fetched).isEmpty = true) :
    sincronizarIncremental store fetched hoje = (store, 0) := by
  unfold sincronizarIncremental
  rw [if_neg hf]
  simp only [hv, if_true]

theorem sincronizar_principal (store : Store) (fetched : List Pedido)
    (hoje : Int) (hf : ¬fetched.isEmpty = true)
    (hv : ¬(filtrarValidos fetched).isEmpty = true) :
    sincronizarIncremental store fetched hoje =
      (⟨store.pedidos ++ (pedidosNovos store fetched).map paraLedger,
        store.ignorados,
        if (agregarPorCliente
            (store.pedidos ++ (pedidosNovos store fetched).map paraLedger)
            hoje).isEmpty then store.clientes
        else calcularEstadoTabela
          (agregarPorCliente
            (store.pedidos ++ (pedidosNovos store fetched).map paraLedger)
            hoje) 45 90⟩,
       (pedidosNovos store fetched).length) := by
  unfold sincronizarIncremental
  rw [if_neg hf]
  simp only [Bool.not_eq_true] at hv
  simp only [hv, Bool.false_eq_true, if_false]
  rfl

theorem mem_pedidosNovos (store : Store) (fetched : List Pedido) (q : Pedido) :
    q ∈ pedidosNovos store fetched ↔
      (∃ p, p ∈ filtrarValidos fetched ∧
        q = { p with pedidoId := aparar p.pedidoId }) ∧
      q.pedidoId ∉ idsExistentes store.pedidos := by
  unfold pedidosNovos
  rw [List.mem_filter, List.mem_map]
  constructor
  · rintro ⟨⟨p, hp, rfl⟩, hq⟩
    refine ⟨⟨p, hp, rfl⟩, fun hcon => ?_⟩
    rw [(pertence_iff _ _).mpr hcon] at hq
    exact absurd hq (by simp)
  · rintro ⟨⟨p, hp, rfl⟩, hq⟩
    refine ⟨⟨p, hp, rfl⟩, ?_⟩
    by_cases hpert : pertence ({ p with pedidoId := aparar p.pedidoId} :
        Pedido).pedidoId (idsExistentes store.pedidos) = true
    · exact absurd ((pertence_iff _ _).mp hpert) hq
    · simp [hpert]

theorem ids_mapParaLedger (l : List Pedido) :
    (l.map paraLedger).map (fun r => r.pedidoId) =
      l.map (fun p => p.pedidoId) := by
  rw [List.map_map]
  rfl

theorem idsExistentes_canonico (l : List LedgerRow)
    (h : ∀ r ∈ l, normalizarId r.pedidoId = r.pedidoId) :
    idsExistentes l = l.map (fun r => r.pedidoId) :=
  List.map_congr_left h

/-! ### C1: the partition and the (absent) ignored ledger -/

/-- C1 (amended): `sincronizar_incremental` never writes an ignored
ledger (the ignored tab is unchanged by every run); cancelled or
fully-refunded orders are simply dropped, so — for canonical,
pairwise-distinct ids — a fetched order's id appears in the valid ledger
after the run iff the order is valid or its id was already there.  In
particular an invalid order not previously ledgered appears in neither
ledger. -/
theorem c1_particao_sem_ledger_ignorados (store : Store)
    (fetched : List Pedido) (hoje : Int)
    (hled : ∀ r ∈ store.pedidos, normalizarId r.pedidoId = r.pedidoId)
    (hnd : (fetched.map (fun p => aparar p.pedidoId)).Nodup) :
    (sincronizarIncremental store fetched hoje).1.ignorados =
      store.ignorados ∧
    ∀ p ∈ fetched,
      (aparar p.pedidoId ∈
          (sincronizarIncremental store fetched hoje).1.pedidos.map
            (fun r => r.pedidoId) ↔
        (pedidoValido p ∨
          aparar p.pedidoId ∈
            store.pedidos.map (fun r => r.pedidoId))) := by
  by_cases hf : fetched.isEmpty = true
  · rw [sincronizar_vazio store fetched hoje hf]
    refine ⟨rfl, fun p hp => ?_⟩
    rw [List.isEmpty_iff] at hf
    subst hf
    exact absurd hp (List.not_mem_nil p)
  · by_cases hv : (filtrarValidos fetched).isEmpty = true
    · rw [sincronizar_sem_validos store fetched hoje hf hv]
      refine ⟨rfl, fun p hp => ?_⟩
      have hnv : ¬pedidoValido p := by
        intro hval
        rw [List.isEmpty_iff] at hv
        have hmem : p ∈ filtrarValidos fetched :=
          (mem_filtrarValidos fetched p).mpr ⟨hp, hval.1, hval.2⟩
        rw [hv] at hmem
        exact absurd hmem (List.not_mem_nil p)
      simp [hnv]
    · rw [sincronizar_principal store fetched hoje hf hv]
      refine ⟨rfl, fun p hp => ?_⟩
      dsimp only
      rw [List.map_append, List.mem_append, ids_mapParaLedger]
      constructor
      · rintro (hmem | hmem)
        · exact Or.inr hmem
        · rw [List.mem_map] at hmem
          obtain ⟨q, hq, hqt⟩ := hmem
          rw [mem_pedidosNovos] at hq
          obtain ⟨⟨p', hp', rfl⟩, -⟩ := hq
          have hp'f : p' ∈ fetched := ((mem_filtrarValidos fetched p').mp hp').1
          have heqp : p' = p :=
            List.inj_on_of_nodup_map hnd hp'f hp hqt
          subst heqp
          have hprops := (mem_filtrarValidos fetched p').mp hp'
          exact Or.inl ⟨hprops.2.1, hprops.2.2⟩
      · rintro (hval | hmem)
        · have hpv : p ∈ filtrarValidos fetched :=
            (mem_filtrarValidos fetched p).mpr ⟨hp, hval.1, hval.2⟩
          by_cases hpert :
              pertence (aparar p.pedidoId) (idsExistentes store.pedidos) = true
          · refine Or.inl ?_
            have hmem := (pertence_iff _ _).mp hpert
            rw [idsExistentes_canonico store.pedidos hled] at hmem
            exact hmem
          · refine Or.inr ?_
            rw [List.mem_map]
            refine ⟨{ p with pedidoId := aparar p.pedidoId }, ?_, rfl⟩
            rw [mem_pedidosNovos]
            exact ⟨⟨p, hpv, rfl⟩,
              fun hcon => hpert ((pertence_iff _ _).mpr hcon)⟩
        · exact Or.inl hmem

/-- Witness for C1 at a concrete store with one ledgered order and a
fetch containing one valid and one cancelled order. -/
theorem c1_witness :
    (∀ r ∈ (⟨[linhaLedger5], [], []⟩ : Store).pedidos,
      normalizarId r.pedidoId = r.pedidoId) ∧
    ([pedidoNovoValido, pedidoCancelado].map
      (fun p => aparar p.pedidoId)).Nodup ∧
    ((sincronizarIncremental ⟨[linhaLedger5], [], []⟩
        [pedidoNovoValido, pedidoCancelado] 0).1.ignorados =
      (⟨[linhaLedger5], [], []⟩ : Store).ignorados ∧
    ∀ p ∈ [pedidoNovoValido, pedidoCancelado],
      (aparar p.pedidoId ∈
          (sincronizarIncremental ⟨[linhaLedger5], [], []⟩
            [pedidoNovoValido, pedidoCancelado] 0).1.pedidos.map
            (fun r => r.pedidoId) ↔
        (pedidoValido p ∨
          aparar p.pedidoId ∈
            (⟨[linhaLedger5], [], []⟩ : Store).pedidos.map
              (fun r => r.pedidoId)))) :=
  ⟨by with_unfolding_all decide, by with_unfolding_all decide,
    c1_particao_sem_ledger_ignorados ⟨[linhaLedger5], [], []⟩
      [pedidoNovoValido, pedidoCancelado] 0
      (by with_unfolding_all decide) (by with_unfolding_all decide)⟩

/-- Counterexample to C1 as stated: syncing a cancelled order into an
empty store leaves both the valid ledger and the ignored tab empty — the
order's id `"9"` appears in neither ledger, and no motive is recorded
anywhere. -/
theorem c1_counterexample :
    (sincronizarIncremental lojaVazia [pedidoCancelado] 0).1.pedidos = [] ∧
    (sincronizarIncremental lojaVazia [pedidoCancelado] 0).1.ignorados = [] := by
  with_unfolding_all decide

/-! ### C3: idempotence of a repeated run -/

theorem pedidosNovos_absorvido (ig : List LedgerRow)
    (cl : List ClienteEstadoRow) (store : Store) (fetched : List Pedido)
    (hfet : ∀ p ∈ fetched, normalizarId (aparar p.pedidoId) = aparar p.pedidoId) :
    pedidosNovos
      ⟨store.pedidos ++ (pedidosNovos store fetched).map paraLedger, ig, cl⟩
      fetched = [] := by
  rw [List.eq_nil_iff_forall_not_mem]
  intro q hq
  rw [mem_pedidosNovos] at hq
  obtain ⟨⟨p, hp, rfl⟩, hnotmem⟩ := hq
  have hpf : p ∈ fetched := ((mem_filtrarValidos fetched p).mp hp).1
  have ht : normalizarId (aparar p.pedidoId) = aparar p.pedidoId := hfet p hpf
  have hmem : aparar p.pedidoId ∈ idsExistentes
      (store.pedidos ++ (pedidosNovos store fetched).map paraLedger) := by
    unfold idsExistentes
    rw [List.map_append, List.mem_append]
    by_cases hpert :
        pertence (aparar p.pedidoId) (idsExistentes store.pedidos) = true
    · exact Or.inl ((pertence_iff _ _).mp hpert)
    · refine Or.inr ?_
      rw [List.mem_map]
      refine ⟨paraLedger { p with pedidoId := aparar p.pedidoId }, ?_, ht⟩
      rw [List.mem_map]
      refine ⟨{ p with pedidoId := aparar p.pedidoId }, ?_, rfl⟩
      rw [mem_pedidosNovos]
      exact ⟨⟨p, hp, rfl⟩, fun hcon => hpert ((pertence_iff _ _).mpr hcon)⟩
  exact hnotmem hmem

/-- C3 (amended): running `sincronizar_incremental` a second time on the
same fetched batch — all of whose ids are canonical under
`_normalizar_id` after stripping — adds zero orders (`novos_pedidos = 0`)
and leaves the whole store, customer table included, exactly as the first
run left it. -/
theorem c3_idempotencia_segunda_execucao (store : Store)
    (fetched : List Pedido) (hoje : Int)
    (hfet : ∀ p ∈ fetched, normalizarId (aparar p.pedidoId) = aparar p.pedidoId) :
    (sincronizarIncremental (sincronizarIncremental store fetched hoje).1
        fetched hoje).2 = 0 ∧
    (sincronizarIncremental (sincronizarIncremental store fetched hoje).1
        fetched hoje).1 = (sincronizarIncremental store fetched hoje).1 := by
  by_cases hf : fetched.isEmpty = true
  · rw [sincronizar_vazio store fetched hoje hf]
    dsimp only
    rw [sincronizar_vazio store fetched hoje hf]
    exact ⟨rfl, rfl⟩
  · by_cases hv : (filtrarValidos fetched).isEmpty = true
    · rw [sincronizar_sem_validos store fetched hoje hf hv]
      dsimp only
      rw [sincronizar_sem_validos store fetched hoje hf hv]
      exact ⟨rfl, rfl⟩
    · rw [sincronizar_principal store fetched hoje hf hv]
      dsimp only
      rw [sincronizar_principal _ fetched hoje hf hv]
      rw [pedidosNovos_absorvido _ _ store fetched hfet]
      dsimp only
      simp only [List.map_nil, List.append_nil, List.length_nil]
      refine ⟨by trivial, ?_⟩
      by_cases hE : (agregarPorCliente
          (store.pedidos ++ (pedidosNovos store fetched).map paraLedger)
          hoje).isEmpty = true
      · simp only [hE, if_true]
      · simp only [Bool.not_eq_true] at hE
        simp only [hE, Bool.false_eq_true, if_false]

/-- Witness for C3: a second run over the already-ledgered canonical
order `"123"` adds nothing and leaves the store unchanged. -/
theorem c3_witness :
    (∀ p ∈ [pedidoCanonico],
      normalizarId (aparar p.pedidoId) = aparar p.pedidoId) ∧
    ((sincronizarIncremental
        (sincronizarIncremental lojaVazia [pedidoCanonico] 0).1
        [pedidoCanonico] 0).2 = 0 ∧
      (sincronizarIncremental
        (sincronizarIncremental lojaVazia [pedidoCanonico] 0).1
        [pedidoCanonico] 0).1 =
        (sincronizarIncremental lojaVazia [pedidoCanonico] 0).1) :=
  ⟨by with_unfolding_all decide,
    c3_idempotencia_segunda_execucao lojaVazia [pedidoCanonico] 0
      (by with_unfolding_all decide)⟩

/-- Counterexample to C3 as stated: after a first run ledgers the order
with id `"123.0"`, a second run over the very same fetch — the source
yields nothing beyond what is already ledgered — still appends it again
(`novos_pedidos = 1`), because the ledger-side id set normalizes
`"123.0"` to `"123"` while the sync-side membership test uses the merely
stripped id `"123.0"`. -/
theorem c3_counterexample :
    (sincronizarIncremental lojaVazia [pedidoPontoZero] 0).1.pedidos.map
      (fun r => r.pedidoId) = ["123.0"] ∧
    (sincronizarIncremental
      (sincronizarIncremental lojaVazia [pedidoPontoZero] 0).1
      [pedidoPontoZero] 0).2 = 1 := by
  with_unfolding_all decide

/-! ### C2: the dedup invariant across batches -/

/-- Invariant of the valid ledger: every stored id is a fixed point of
`_normalizar_id`, and the stored ids are pairwise distinct. -/
def lojaCanonica (s : Store) : Prop :=
  (∀ r ∈ s.pedidos, normalizarId r.pedidoId = r.pedidoId) ∧
  (s.pedidos.map (fun r => r.pedidoId)).Nodup

/-- A fetched batch whose stripped ids are fixed under `_normalizar_id`
(no `".0"` fragments, no commas) and whose valid orders carry pairwise
distinct ids. -/
def loteBemFormado (lote : List Pedido) : Prop :=
  (∀ p ∈ lote, normalizarId (aparar p.pedidoId) = aparar p.pedidoId) ∧
  ((filtrarValidos lote).map (fun p => aparar p.pedidoId)).Nodup

theorem passo_preserva_canonico (store : Store) (lote : List Pedido)
    (hoje : Int) (hinv : lojaCanonica store) (hlote : loteBemFormado lote) :
    lojaCanonica (sincronizarIncremental store lote hoje).1 := by
  by_cases hf : lote.isEmpty = true
  · rw [sincronizar_vazio _ _ _ hf]
    exact hinv
  by_cases hv : (filtrarValidos lote).isEmpty = true
  · rw [sincronizar_sem_validos _ _ _ hf hv]
    exact hinv
  rw [sincronizar_principal _ _ _ hf hv]
  constructor
  · intro r hr
    dsimp only at hr
    rw [List.mem_append] at hr
    rcases hr with hr | hr
    · exact hinv.1 r hr
    · rw [List.mem_map] at hr
      obtain ⟨q, hq, rfl⟩ := hr
      rw [mem_pedidosNovos] at hq
      obtain ⟨⟨p, hp, rfl⟩, -⟩ := hq
      exact hlote.1 p ((mem_filtrarValidos _ _).mp hp).1
  · dsimp only
    rw [List.map_append, ids_mapParaLedger]
    refine List.Nodup.append hinv.2 ?_ ?_
    · have hsub : List.Sublist
          ((pedidosNovos store lote).map (fun p => p.pedidoId))
          (((filtrarValidos lote).map
            (fun p => { p with pedidoId := aparar p.pedidoId })).map
            (fun p : Pedido => p.pedidoId)) :=
        List.Sublist.map _ (List.filter_sublist _)
      have heq : ((filtrarValidos lote).map
          (fun p => { p with pedidoId := aparar p.pedidoId })).map
            (fun p : Pedido => p.pedidoId) =
          (filtrarValidos lote).map (fun p => aparar p.pedidoId) := by
        rw [List.map_map]
        rfl
      rw [heq] at hsub
      exact hlote.2.sublist hsub
    · intro a ha hcontra
      rw [List.mem_map] at hcontra
      obtain ⟨q, hq, rfl⟩ := hcontra
      rw [mem_pedidosNovos] at hq
      refine hq.2 ?_
      rw [idsExistentes_canonico store.pedidos hinv.1]
      exact ha

/-- C2 (amended): starting from a ledger whose ids are canonical and
distinct, and feeding batches whose stripped ids are canonical (no
`".0"`/`","` fragments) with distinct ids among each batch's valid
orders, the final valid ledger has exactly one row per distinct
normalized id.  (Incoming ids are only stripped, never `".0"`-cleaned,
so the restriction to canonical batch ids is necessary.) -/
theorem c2_dedup_por_id_normalizado (store : Store)
    (lotes : List (List Pedido)) (hoje : Int)
    (hinv0 : lojaCanonica store)
    (hlotes : ∀ lote ∈ lotes, loteBemFormado lote) :
    ((execucoes store lotes hoje).pedidos.map
      (fun r => normalizarId r.pedidoId)).Nodup := by
  have hfinal : lojaCanonica (execucoes store lotes hoje) := by
    induction lotes generalizing store with
    | nil => exact hinv0
    | cons lote rest ih =>
      simp only [execucoes, List.foldl_cons]
      exact ih (sincronizarIncremental store lote hoje).1
        (passo_preserva_canonico store lote hoje hinv0
          (hlotes lote (List.mem_cons_self lote rest)))
        (fun l hl => hlotes l (List.mem_cons_of_mem lote hl))
  rw [List.map_congr_left hfinal.1]
  exact hfinal.2

instance (s : Store) : Decidable (lojaCanonica s) := by
  unfold lojaCanonica
  infer_instance

instance (lote : List Pedido) : Decidable (loteBemFormado lote) := by
  unfold loteBemFormado
  infer_instance

/-- Witness for C2 over two well-formed batches against an empty store. -/
theorem c2_witness :
    lojaCanonica lojaVazia ∧
    (∀ lote ∈ [[pedidoCanonico], [pedidoNovoValido]], loteBemFormado lote) ∧
    ((execucoes lojaVazia [[pedidoCanonico], [pedidoNovoValido]] 0).pedidos.map
      (fun r => normalizarId r.pedidoId)).Nodup :=
  ⟨by with_unfolding_all decide, by with_unfolding_all decide,
    c2_dedup_por_id_normalizado lojaVazia [[pedidoCanonico], [pedidoNovoValido]] 0
      (by with_unfolding_all decide) (by with_unfolding_all decide)⟩

/-- Counterexample to C2 as stated: feeding the batches `[123]` then
`["123.0"]` yields a final valid ledger with two rows whose normalized
ids are both `"123"` — the incoming id was never `".0"`-canonicalized
before the membership test or the write. -/
theorem c2_counterexample :
    (execucoes lojaVazia [[pedidoCanonico], [pedidoPontoZero]] 0).pedidos.map
      (fun r => normalizarId r.pedidoId) = ["123", "123"] ∧
    (execucoes lojaVazia [[pedidoCanonico], [pedidoPontoZero]] 0).pedidos.length
      = 2 := by
  with_unfolding_all decide

end PosVendas
